import Mathlib

/-!
# Verification of the global-vpc multi-region network provisioner

Shallow embedding of `src/global_vpc.py`: the address-planning arithmetic
(`create_subnets`, the per-region offset assignment by `main`), the per-region
build function (`process_region` with its error containment), the mesh pairing
(`main`'s list comprehension over `vpcs`), the route updates of
`create_peering`, and the confirmation gate of `main`.

Provider calls are modelled by explicit outcomes (`Outcome`): each call either
returns a value or raises the provider's `ClientError`.  A Python function that
lets a non-`ClientError` exception escape is modelled as returning
`PyResult.exn` with the exception's name.
-/

namespace GlobalVpc

/-! ## Constants (global_vpc.py lines 36-42) -/

def SUBNET_OFFSET : Nat := 4
def SUBNET_WIDTH : Nat := 22
def REGION_SUBNET_START : Nat := 101
def PUBLIC_SUBNET_START : Nat := 11
def PRIVATE_SUBNET_START : Nat := 51
def DATA_SUBNET_START : Nat := 101
def ADMIN_SUBNET_START : Nat := 201

/-! ## Address planner (`create_subnets`, lines 213-255) -/

/-- An availability zone as returned by `describe_availability_zones`:
the fields of the dict that `create_subnets` reads (`ZoneName`, `ZoneId`). -/
structure AZ where
  zoneName : String
  zoneId : String
deriving Repr, DecidableEq

/-- The `[subnet_type, subnet_start]` pairs iterated by `create_subnets`
(lines 227-232), in source order. -/
def tierStarts : List (String × Nat) :=
  [("public", PUBLIC_SUBNET_START), ("private", PRIVATE_SUBNET_START),
   ("data", DATA_SUBNET_START), ("admin", ADMIN_SUBNET_START)]

/-- The CIDR string built at line 235: `f"10.{cidr_block}.{subnet_cidr}.0/{SUBNET_WIDTH}"`. -/
def subnetCidrStr (cidr_block third : Nat) : String :=
  "10." ++ toString cidr_block ++ "." ++ toString third ++ ".0/" ++ toString SUBNET_WIDTH

/-- One subnet-creation request: the arguments `create_subnets` passes to
`vpc.create_subnet` (lines 234-248). -/
structure SubnetSpec where
  cidrBlock : String
  availabilityZone : String
  nameTag : String
deriving Repr, DecidableEq

/-- The four subnets requested for one availability zone (`index`, `az`):
the inner `for subnet_type, subnet_start in [...]` loop body. -/
def zoneSubnets (cidr_block index : Nat) (az : AZ) : List SubnetSpec :=
  tierStarts.map fun ts =>
    { cidrBlock := subnetCidrStr cidr_block (index * SUBNET_OFFSET + ts.2)
      availabilityZone := az.zoneName
      nameTag := "subnet-" ++ az.zoneId ++ "-" ++ ts.1.take 3 ++ "-jgn" }

/-- The outer `for index, az in enumerate(availability_zones)` loop,
with `index` threaded explicitly. -/
def create_subnets_go (cidr_block index : Nat) : List AZ → List SubnetSpec
  | [] => []
  | az :: rest =>
      zoneSubnets cidr_block index az ++ create_subnets_go cidr_block (index + 1) rest

/-- `create_subnets(vpc, cidr_block, availability_zones)` (lines 213-255), success
path: the list of subnet-creation requests it issues, in order. -/
def create_subnets (cidr_block : Nat) (azs : List AZ) : List SubnetSpec :=
  create_subnets_go cidr_block 0 azs

/-- The subnet CIDR in the form the spec states it:
`10.<offset>.<third>.0/22`.  Used to compare the code's output with the
spec's formula. -/
def specSubnetCidr (offset third : Nat) : String :=
  "10." ++ toString offset ++ "." ++ toString third ++ ".0/22"

/-! ## Numeric address ranges

IPv4 addresses as naturals; a CIDR-style block is the half-open interval
`[lo, hi)` of addresses it spans. -/

/-- The address `a.b.c.d` as a natural number. -/
def ip4 (a b c d : Nat) : Nat := ((a * 256 + b) * 256 + c) * 256 + d

/-- The region's top-level block `10.<offset>.0.0/16` as an address interval. -/
def topRange (offset : Nat) : Nat × Nat :=
  (ip4 10 offset 0 0, ip4 10 offset 0 0 + 65536)

/-- The span of a `/22` subnet whose third octet field is `third`:
four third-octet values, `10.<offset>.<third>.0` through
`10.<offset>.<third + 3>.255`. -/
def subnetRange (offset third : Nat) : Nat × Nat :=
  (ip4 10 offset third 0, ip4 10 offset third 0 + 1024)

/-- Two half-open address intervals do not intersect. -/
def rangesDisjoint (r s : Nat × Nat) : Prop := r.2 ≤ s.1 ∨ s.2 ≤ r.1

/-- `r` lies inside `s` (half-open intervals). -/
def rangeInside (r s : Nat × Nat) : Prop := s.1 ≤ r.1 ∧ r.2 ≤ s.2

/-- The third octet computed at line 233: `index * SUBNET_OFFSET + subnet_start`. -/
def subnetThirdOctet (index start : Nat) : Nat := index * SUBNET_OFFSET + start

/-- The property claimed for one zone: the four tier blocks of zone `zi`
are pairwise disjoint and each lies inside the top-level `/16`. -/
def zoneTiersOk (offset zi : Nat) : Prop :=
  (rangesDisjoint (subnetRange offset (subnetThirdOctet zi PUBLIC_SUBNET_START))
      (subnetRange offset (subnetThirdOctet zi PRIVATE_SUBNET_START)) ∧
   rangesDisjoint (subnetRange offset (subnetThirdOctet zi PUBLIC_SUBNET_START))
      (subnetRange offset (subnetThirdOctet zi DATA_SUBNET_START)) ∧
   rangesDisjoint (subnetRange offset (subnetThirdOctet zi PUBLIC_SUBNET_START))
      (subnetRange offset (subnetThirdOctet zi ADMIN_SUBNET_START)) ∧
   rangesDisjoint (subnetRange offset (subnetThirdOctet zi PRIVATE_SUBNET_START))
      (subnetRange offset (subnetThirdOctet zi DATA_SUBNET_START)) ∧
   rangesDisjoint (subnetRange offset (subnetThirdOctet zi PRIVATE_SUBNET_START))
      (subnetRange offset (subnetThirdOctet zi ADMIN_SUBNET_START)) ∧
   rangesDisjoint (subnetRange offset (subnetThirdOctet zi DATA_SUBNET_START))
      (subnetRange offset (subnetThirdOctet zi ADMIN_SUBNET_START))) ∧
  (rangeInside (subnetRange offset (subnetThirdOctet zi PUBLIC_SUBNET_START)) (topRange offset) ∧
   rangeInside (subnetRange offset (subnetThirdOctet zi PRIVATE_SUBNET_START)) (topRange offset) ∧
   rangeInside (subnetRange offset (subnetThirdOctet zi DATA_SUBNET_START)) (topRange offset) ∧
   rangeInside (subnetRange offset (subnetThirdOctet zi ADMIN_SUBNET_START)) (topRange offset))

instance (r s : Nat × Nat) : Decidable (rangesDisjoint r s) := by
  unfold rangesDisjoint; infer_instance

instance (r s : Nat × Nat) : Decidable (rangeInside r s) := by
  unfold rangeInside; infer_instance

instance (offset zi : Nat) : Decidable (zoneTiersOk offset zi) := by
  unfold zoneTiersOk; infer_instance

/-! ## Orchestrator offset assignment (`main`, lines 388-398) -/

/-- The offset handed to `process_region` for the region at index `i` of the
sorted region list: `region_subnet + i * SUBNET_OFFSET` (line 395) with
`region_subnet = REGION_SUBNET_START` (line 388). -/
def regionOffset (i : Nat) : Nat := REGION_SUBNET_START + i * SUBNET_OFFSET

/-- The region-to-offset assignment over the (already lexicographically
sorted, cf. `get_all_regions` line 56) region list. -/
def assignOffsets (sortedRegions : List String) : List (String × Nat) :=
  (sortedRegions.enum).map fun p => (p.2, regionOffset p.1)

/-! ## Provider outcomes and the per-region build (`process_region`, lines 178-210) -/

/-- The outcome of one provider call: either a returned value or a raised
`botocore.exceptions.ClientError`. -/
inductive Outcome (α : Type) where
  | ok : α → Outcome α
  | clientError : Outcome α
deriving Repr, DecidableEq

/-- What a Python call evaluates to at the caller: a returned value, or an
exception that escaped the call (named by its Python class). -/
inductive PyResult (α : Type) where
  | ok : α → PyResult α
  | exn : String → PyResult α
deriving Repr, DecidableEq

/-- The dict `{"Region": ..., "VpcId": ..., "Cidr": ...}` returned by a fully
dispatched `process_region` (line 205).  The empty dict `dict()` returned on
failure (lines 207, 210) is modelled as `none` at type `Option NetworkRecord`. -/
structure NetworkRecord where
  region : String
  vpcId : String
  cidr : String
deriving Repr, DecidableEq

/-- The provider-call outcomes a single region's build can encounter, one
field per distinct provider operation in the build path. -/
structure RegionEnv where
  /-- `create_vpc` + the `vpc_available` waiter inside `create_vpc_in_region`
  (lines 74-90); `ok id` is the created VPC's id. -/
  vpcCreate : Outcome String
  /-- `create_internet_gateway` / `attach_internet_gateway` inside `setup_vpc`
  (lines 103-120); `ok gid` is the gateway id. -/
  gatewayCreate : Outcome String
  /-- `authorize_security_group_ingress` inside `setup_security_groups`
  (lines 133-147); its `ClientError` is caught there and swallowed. -/
  sgAuthorize : Outcome Unit
  /-- `create_tags` / `create_route` inside `setup_route_tables`
  (lines 160-175); its `ClientError` is caught there and swallowed. -/
  routeCreate : Outcome Unit
  /-- `describe_availability_zones` (lines 197-199), raised inside
  `process_region`'s own `try`. -/
  describeAZs : Outcome (List AZ)
  /-- The `vpc.create_subnet` calls inside `create_subnets` (lines 224-255);
  on `clientError` that function returns the empty list. -/
  subnetCreate : Outcome Unit
deriving Repr, DecidableEq

/-- `create_vpc_in_region` (lines 64-90): returns the VPC id, or `""` when the
provider call raises `ClientError` (caught at lines 88-90). -/
def create_vpc_in_region (o : Outcome String) : String :=
  match o with
  | .ok vpcId => vpcId
  | .clientError => ""

/-- `setup_vpc` (lines 93-120): returns `(vpc, gateway.id)` on success and
`(None, None)` when a `ClientError` is caught (lines 118-120).  The VPC handle
is represented by its id; `none` models the `(None, None)` pair. -/
def setup_vpc (vpcId : String) (o : Outcome String) : Option (String × String) :=
  match o with
  | .ok gatewayId => some (vpcId, gatewayId)
  | .clientError => none

/-- `create_subnets` (lines 213-255) with its provider outcome: on any
`create_subnet` `ClientError` the whole loop is abandoned and the empty list
returned (lines 253-255); otherwise the full request list. -/
def create_subnets_run (cidr_block : Nat) (azs : List AZ) (o : Outcome Unit) :
    List SubnetSpec :=
  match o with
  | .ok _ => create_subnets cidr_block azs
  | .clientError => []

/-- `process_region(region, cidr_block)` (lines 178-210).

Control flow, mirrored from the source:
* `cidr = f"10.{cidr_block}.0.0/16"` (line 189); `create_vpc_in_region` yields
  `""` on failure, so `if vpc_id:` (line 192) is the emptiness test;
* when `setup_vpc` failed it returned `(None, None)`, and the very next call
  `setup_security_groups(..., vpc)` dereferences `None.security_groups`
  (line 134): that raises `AttributeError`, which neither function's
  `except ClientError` catches, so it escapes `process_region`;
* a `ClientError` from `describe_availability_zones` is caught by
  `process_region`'s own handler, which returns `dict()` (lines 208-210);
* `create_subnets` contains its own failures, so the record at line 205 is
  returned no matter how many subnets were created. -/
def process_region (region : String) (cidr_block : Nat) (env : RegionEnv) :
    PyResult (Option NetworkRecord) :=
  let cidr := "10." ++ toString cidr_block ++ ".0.0/16"
  let vpc_id := create_vpc_in_region env.vpcCreate
  if vpc_id ≠ "" then
    match setup_vpc vpc_id env.gatewayCreate with
    | none => .exn "AttributeError"
    | some _ =>
      match env.describeAZs with
      | .clientError => .ok none
      | .ok azs =>
        let _subnets := create_subnets_run cidr_block azs env.subnetCreate
        .ok (some { region := region, vpcId := vpc_id, cidr := cidr })
  else
    .ok none

/-! ## Orchestrator collection and mesh pairing (`main`, lines 399-412) -/

/-- The `vpcs` list built at lines 399-404: each future's `result()` is
appended; a future whose call raised has its exception caught and logged,
contributing nothing. -/
def collectVpcs (results : List (PyResult (Option NetworkRecord))) :
    List (Option NetworkRecord) :=
  results.filterMap fun r =>
    match r with
    | .ok rec => some rec
    | .exn _ => none

/-- The pair enumeration of lines 408-411:
`for idx, requestor in enumerate(vpcs) for acceptor in vpcs[idx + 1:]`. -/
def enumeratePairs {α : Type} : List α → List (α × α)
  | [] => []
  | x :: xs => xs.map (fun y => (x, y)) ++ enumeratePairs xs

/-! ## Mesh connector route updates (`create_peering`, lines 326-338) -/

/-- One `route_table.create_route(DestinationCidrBlock=..., VpcPeeringConnectionId=...)`
call. -/
structure RouteAdd where
  table : String
  destCidr : String
  peeringId : String
deriving Repr, DecidableEq

/-- The route-creation calls a successful `create_peering(requestor, acceptor)`
issues (lines 326-338): one per route table of the acceptor's VPC with the
requestor's CIDR as destination, then one per route table of the requestor's
VPC with the acceptor's CIDR, all via the pair's peering connection. -/
def create_peering_routes (peeringId : String)
    (requestorCidr acceptorCidr : String)
    (requestorTables acceptorTables : List String) : List RouteAdd :=
  acceptorTables.map (fun t => ⟨t, requestorCidr, peeringId⟩)
    ++ requestorTables.map (fun t => ⟨t, acceptorCidr, peeringId⟩)

/-! ## Confirmation gate and the run's effect trace (`main`, lines 347-419) -/

/-- Python's `str.lower` on one character, for the ASCII range (the only
characters whose Python lowercasing can produce `"yes"`). -/
def pyLowerChar (c : Char) : Char :=
  if 'A' ≤ c ∧ c ≤ 'Z' then Char.ofNat (c.toNat + 32) else c

/-- `confirmation.lower()` (line 380): the per-character lowering applied to
the string's characters. -/
def pyLower (s : String) : String := String.mk (s.data.map pyLowerChar)

/-- An observable step of the run: a log line, a provider API call, the
dispatch of one region's build, or the dispatch of one pair's peering. -/
inductive Effect where
  | log : String → Effect
  | providerCall : String → Effect
  | regionDispatch : String → Effect
  | pairDispatch : Option NetworkRecord → Option NetworkRecord → Effect
deriving Repr, DecidableEq

/-- `main` (lines 347-419) as a trace of effects.  `sortedRegions` is the list
returned by `get_all_regions`; `buildResults` pairs each region (in dispatch
order) with the outcome of its `process_region` call.

On `confirmation.lower() != "yes"` (line 380) exactly one log line is emitted
and the function returns — no provider call, no region dispatch, no pair
dispatch.  Otherwise: the start log, the `describe_regions` call inside
`get_all_regions`, one dispatch per region, one dispatch per pair of the
collected `vpcs` list, then the completion log. -/
def mainRun (confirmation : String) (sortedRegions : List String)
    (buildResults : List (PyResult (Option NetworkRecord))) : List Effect :=
  if pyLower confirmation ≠ "yes" then
    [Effect.log "Operation cancelled by the user."]
  else
    Effect.log "Starting VPC creation and peering process" ::
    Effect.providerCall "describe_regions" ::
    (sortedRegions.map Effect.regionDispatch
      ++ (enumeratePairs (collectVpcs buildResults)).map
          (fun p => Effect.pairDispatch p.1 p.2)
      ++ [Effect.log "VPC creation and peering process completed successfully."])

/-- Recognizers for trace accounting. -/
def Effect.isLog : Effect → Bool
  | .log _ => true
  | _ => false

def Effect.isProviderCall : Effect → Bool
  | .providerCall _ => true
  | _ => false

def Effect.isRegionDispatch : Effect → Bool
  | .regionDispatch _ => true
  | _ => false

def Effect.isPairDispatch : Effect → Bool
  | .pairDispatch _ _ => true
  | _ => false

/-! ## Theorems -/

/-- The code's CIDR string with `SUBNET_WIDTH = 22` filled in matches the
spec's `/22` form. -/
theorem subnetCidrStr_eq_spec (c t : Nat) : subnetCidrStr c t = specSubnetCidr c t := by
  simp only [subnetCidrStr, specSubnetCidr, SUBNET_WIDTH]
  rw [show toString (22 : Nat) = "22" from by decide, String.append_assoc,
    show (".0/" ++ "22" : String) = ".0/22" from by decide]

/-- The four CIDRs planned for a single zone, in tier order. -/
theorem zoneSubnets_cidrs (cidr_block i : Nat) (az : AZ) :
    (zoneSubnets cidr_block i az).map (fun s => s.cidrBlock)
      = [specSubnetCidr cidr_block (i * 4 + 11), specSubnetCidr cidr_block (i * 4 + 51),
         specSubnetCidr cidr_block (i * 4 + 101), specSubnetCidr cidr_block (i * 4 + 201)] := by
  simp only [zoneSubnets, tierStarts, List.map_cons, List.map_nil, subnetCidrStr_eq_spec,
    SUBNET_OFFSET, PUBLIC_SUBNET_START, PRIVATE_SUBNET_START, DATA_SUBNET_START,
    ADMIN_SUBNET_START]

/-- Closed form of the zone loop, for an arbitrary starting index. -/
theorem create_subnets_go_cidrs (cidr_block : Nat) (azs : List AZ) :
    ∀ i, (create_subnets_go cidr_block i azs).map (fun s => s.cidrBlock)
      = (List.range' i azs.length).flatMap (fun zi =>
          [specSubnetCidr cidr_block (zi * 4 + 11), specSubnetCidr cidr_block (zi * 4 + 51),
           specSubnetCidr cidr_block (zi * 4 + 101), specSubnetCidr cidr_block (zi * 4 + 201)]) := by
  induction azs with
  | nil => intro i; rfl
  | cons az rest ih =>
      intro i
      simp only [create_subnets_go, List.map_append, ih, List.length_cons,
        List.range'_succ, List.flatMap_cons, zoneSubnets_cidrs]

/-- **C1.** For every offset and zone index, the subnet CIDRs computed by
`create_subnets` are `10.<offset>.<zoneIndex*4 + tierStart>.0/22` with tier
starts public = 11, private = 51, data = 101, admin = 201 (in that order per
zone); in particular, for offset 0 and the two-zone list
`use1-az1`, `usw2-az2` the produced blocks are exactly
`10.0.11.0/22`, `10.0.51.0/22`, `10.0.101.0/22`, `10.0.201.0/22` for zone 0 and
`10.0.15.0/22`, `10.0.55.0/22`, `10.0.105.0/22`, `10.0.205.0/22` for zone 1. -/
theorem subnet_cidr_formula :
    (∀ (offset : Nat) (azs : List AZ),
      (create_subnets offset azs).map (fun s => s.cidrBlock)
        = (List.range azs.length).flatMap (fun zi =>
            [specSubnetCidr offset (zi * 4 + 11), specSubnetCidr offset (zi * 4 + 51),
             specSubnetCidr offset (zi * 4 + 101), specSubnetCidr offset (zi * 4 + 201)]))
    ∧ (create_subnets 0 [⟨"us-east-1a", "use1-az1"⟩, ⟨"us-west-2b", "usw2-az2"⟩]).map
          (fun s => s.cidrBlock)
        = ["10.0.11.0/22", "10.0.51.0/22", "10.0.101.0/22", "10.0.201.0/22",
           "10.0.15.0/22", "10.0.55.0/22", "10.0.105.0/22", "10.0.205.0/22"] := by
  refine ⟨fun offset azs => ?_, by decide⟩
  rw [create_subnets, create_subnets_go_cidrs, List.range_eq_range']

/-- **C2 counterexample.** The claim "for every offset in [0,255] and every
zone index in [0,63] the four tier blocks are pairwise disjoint and each lies
inside `10.<offset>.0.0/16`" is false: at offset 0, zone index 63 the admin
tier's third octet is `63*4 + 201 = 453`, far past the end of the `/16`. -/
theorem zone_tiers_claim_false :
    ¬ (∀ offset, offset ≤ 255 → ∀ zi, zi ≤ 63 → zoneTiersOk offset zi) := by
  intro h
  exact absurd (h 0 (by decide) 63 (by decide)) (by decide)

/-- **C2 (amended).** For every offset in [0,255] and zone index in [0,12],
the four tier blocks of that zone are pairwise disjoint and each lies inside
the top-level `10.<offset>.0.0/16`; the capacity before collision is far below
64 zones per tier: zone 13's admin block already leaves the `/16`, and the
public tier holds only 10 zones before its block reaches the private tier's
start (zone 10's public block is exactly `10.<offset>.51.0/22`). -/
theorem zone_tiers_disjoint_inside :
    (∀ offset zi, offset ≤ 255 → zi ≤ 12 → zoneTiersOk offset zi)
    ∧ ¬ zoneTiersOk 0 13
    ∧ (∀ offset zi, zi ≤ 9 →
        rangesDisjoint (subnetRange offset (subnetThirdOctet zi PUBLIC_SUBNET_START))
          (subnetRange offset (subnetThirdOctet 0 PRIVATE_SUBNET_START)))
    ∧ ¬ rangesDisjoint (subnetRange 0 (subnetThirdOctet 10 PUBLIC_SUBNET_START))
          (subnetRange 0 (subnetThirdOctet 0 PRIVATE_SUBNET_START)) := by
  refine ⟨fun offset zi _ hzi => ?_, by decide, fun offset zi hzi => ?_, by decide⟩
  · simp only [zoneTiersOk, rangesDisjoint, rangeInside, subnetRange, topRange, ip4,
      subnetThirdOctet, SUBNET_OFFSET, PUBLIC_SUBNET_START, PRIVATE_SUBNET_START,
      DATA_SUBNET_START, ADMIN_SUBNET_START]
    omega
  · simp only [rangesDisjoint, subnetRange, ip4, subnetThirdOctet, SUBNET_OFFSET,
      PUBLIC_SUBNET_START, PRIVATE_SUBNET_START]
    omega

/-- **C2 witness.** The amended bounds instantiated at their edges:
offset 255, zone 12 satisfies the zone property, and zone 9's public block is
still clear of the private tier's start. -/
theorem zone_tiers_disjoint_inside_witness :
    zoneTiersOk 255 12
    ∧ rangesDisjoint (subnetRange 255 (subnetThirdOctet 9 PUBLIC_SUBNET_START))
        (subnetRange 255 (subnetThirdOctet 0 PRIVATE_SUBNET_START)) :=
  ⟨zone_tiers_disjoint_inside.1 255 12 (by decide) (by decide),
   zone_tiers_disjoint_inside.2.2.1 255 9 (by decide)⟩

/-- **C3.** The orchestrator hands the region at index `i` of the sorted
region list the offset `101 + i*4`; these offsets are pairwise distinct (the
assignment is injective in the index), never fall in 1..100, and any two
distinct offsets in [0,255] yield disjoint top-level `/16` blocks. -/
theorem region_offsets_distinct_disjoint :
    (∀ i, regionOffset i = 101 + i * 4)
    ∧ (∀ rs : List String,
        (assignOffsets rs).map Prod.snd = (List.range rs.length).map regionOffset)
    ∧ (∀ i j, regionOffset i = regionOffset j → i = j)
    ∧ (∀ i, ¬ (1 ≤ regionOffset i ∧ regionOffset i ≤ 100))
    ∧ (∀ o1 o2, o1 ≠ o2 → o1 ≤ 255 → o2 ≤ 255 →
        rangesDisjoint (topRange o1) (topRange o2)) := by
  refine ⟨fun i => rfl, fun rs => ?_, fun i j h => ?_, fun i => ?_, fun o1 o2 hne h1 h2 => ?_⟩
  · rw [assignOffsets, List.map_map, ← List.enum_map_fst rs, List.map_map]
    rfl
  · simp only [regionOffset, REGION_SUBNET_START, SUBNET_OFFSET] at h
    omega
  · simp only [regionOffset, REGION_SUBNET_START, SUBNET_OFFSET]
    omega
  · simp only [rangesDisjoint, topRange, ip4]
    omega

/-- **C3 witness.** The first two assigned offsets, 101 and 105, give disjoint
top-level blocks, and offset injectivity applied at equal offsets. -/
theorem region_offsets_witness :
    rangesDisjoint (topRange (regionOffset 0)) (topRange (regionOffset 1))
    ∧ ¬ (1 ≤ regionOffset 2 ∧ regionOffset 2 ≤ 100) :=
  ⟨region_offsets_distinct_disjoint.2.2.2.2 (regionOffset 0) (regionOffset 1)
      (by decide) (by decide) (by decide),
   region_offsets_distinct_disjoint.2.2.2.1 2⟩

/-- **C4.** In a run with two regions where the first build returns the empty
dict (its VPC creation failed) and the second succeeds, the `vpcs` list built
at lines 399-404 still contains the empty record, and the pair comprehension
of lines 408-411 dispatches `create_peering` on the pair whose first side is
the empty record — the empty result is *not* excluded from pairing. -/
theorem empty_record_enters_pairing :
    enumeratePairs (collectVpcs
        [.ok none, .ok (some ⟨"us-west-1", "vpc-67890", "10.105.0.0/16"⟩)])
      = [((none : Option NetworkRecord),
          some ⟨"us-west-1", "vpc-67890", "10.105.0.0/16"⟩)] := by decide

/-- **C5.** When the VPC creation returned a (non-empty) id and the gateway
setup and zone enumeration did not fail, `process_region` returns the full
record `{Region, VpcId, Cidr}` whatever the outcome of the subnet creations:
`create_subnets` contains its own `ClientError` (lines 253-255), so subnet
failures alone never remove the record. -/
theorem record_survives_subnet_failure
    (region : String) (cidr_block : Nat) (env : RegionEnv) (vid gid : String)
    (azs : List AZ)
    (hv : env.vpcCreate = .ok vid) (hvne : vid ≠ "")
    (hg : env.gatewayCreate = .ok gid) (ha : env.describeAZs = .ok azs) :
    process_region region cidr_block env
      = .ok (some { region := region, vpcId := vid,
                    cidr := "10." ++ toString cidr_block ++ ".0.0/16" }) := by
  simp only [process_region, create_vpc_in_region, hv, hg, ha, setup_vpc]
  rw [if_pos hvne]

/-- **C5 witness.** A concrete build whose every subnet creation fails still
returns the full record. -/
theorem record_survives_subnet_failure_witness :
    process_region "us-east-1" 101
      { vpcCreate := .ok "vpc-12345", gatewayCreate := .ok "igw-12345",
        sgAuthorize := .ok (), routeCreate := .ok (),
        describeAZs := .ok [⟨"us-east-1a", "use1-az1"⟩], subnetCreate := .clientError }
      = .ok (some { region := "us-east-1", vpcId := "vpc-12345",
                    cidr := "10.101.0.0/16" }) := by
  rw [record_survives_subnet_failure "us-east-1" 101 _ "vpc-12345" "igw-12345"
    [⟨"us-east-1a", "use1-az1"⟩] rfl (by decide) rfl rfl]
  decide

/-- **C6.** Error containment breaks at the gateway step: when the VPC was
created but `setup_vpc` caught a `ClientError` (returning `(None, None)`,
lines 118-120), `process_region` passes the `None` VPC to
`setup_security_groups`, whose `vpc.security_groups` dereference raises
`AttributeError`; no `except ClientError` catches it, so the build propagates
an exception instead of returning the empty dict.  By contrast, a failed VPC
creation is contained and yields the empty dict. -/
theorem gateway_failure_raises :
    process_region "us-east-1" 101
      { vpcCreate := .ok "vpc-12345", gatewayCreate := .clientError,
        sgAuthorize := .ok (), routeCreate := .ok (),
        describeAZs := .ok [⟨"us-east-1a", "use1-az1"⟩], subnetCreate := .ok () }
      = .exn "AttributeError"
    ∧ process_region "us-east-1" 101
      { vpcCreate := .clientError, gatewayCreate := .ok "igw-12345",
        sgAuthorize := .ok (), routeCreate := .ok (),
        describeAZs := .ok [⟨"us-east-1a", "use1-az1"⟩], subnetCreate := .ok () }
      = .ok none := by decide

/-! ### Pair enumeration (C7) -/

/-- Arithmetic step for the pair count: going from `n` elements to `n + 1`
adds `n` pairs. -/
theorem pair_count_step (n pl : Nat) (h : 2 * pl = n * (n - 1)) :
    2 * (n + pl) = (n + 1) * (n + 1 - 1) := by
  cases n with
  | zero => omega
  | succ m =>
      simp only [Nat.succ_sub_one] at h ⊢
      have e : (m + 1 + 1) * (m + 1) = (m + 1) * m + 2 * (m + 1) := by ring
      linarith [e, h]

/-- Twice the number of enumerated pairs is `n * (n - 1)`. -/
theorem two_mul_length_enumeratePairs {α : Type} (l : List α) :
    2 * (enumeratePairs l).length = l.length * (l.length - 1) := by
  induction l with
  | nil => rfl
  | cons x xs ih =>
      simp only [enumeratePairs, List.length_append, List.length_map, List.length_cons]
      exact pair_count_step xs.length _ ih

/-- A pair is enumerated exactly when its two components occur in the list in
that order: membership in `enumeratePairs l` is the two-element sublist
relation. -/
theorem mem_enumeratePairs {α : Type} (a b : α) :
    ∀ l : List α, (a, b) ∈ enumeratePairs l ↔ List.Sublist [a, b] l := by
  intro l
  induction l with
  | nil =>
      simp only [enumeratePairs, List.not_mem_nil, false_iff]
      intro h
      cases h
  | cons x xs ih =>
      simp only [enumeratePairs, List.mem_append, List.mem_map, ih]
      constructor
      · rintro (⟨y, hy, heq⟩ | h)
        · obtain ⟨rfl, rfl⟩ : x = a ∧ y = b := Prod.mk.injEq x y a b ▸ heq
          exact List.cons_sublist_cons.mpr (List.singleton_sublist.mpr hy)
        · exact h.cons x
      · intro h
        cases h with
        | cons _ h' => exact Or.inr h'
        | cons₂ _ h' => exact Or.inl ⟨b, List.singleton_sublist.mp h', rfl⟩

/-- In a duplicate-free list, a pair and its reverse cannot both be
enumerated (unless degenerate). -/
theorem enumeratePairs_antisymm {α : Type} :
    ∀ l : List α, l.Nodup → ∀ a b : α,
      List.Sublist [a, b] l → List.Sublist [b, a] l → a = b := by
  intro l
  induction l with
  | nil => intro _ a b h; cases h
  | cons x xs ih =>
      intro hnd a b h1 h2
      obtain ⟨hx, hxs⟩ := List.nodup_cons.mp hnd
      cases h1 with
      | cons _ h1' =>
          cases h2 with
          | cons _ h2' => exact ih hxs a b h1' h2'
          | cons₂ _ h2' =>
              exact absurd (h1'.subset (List.mem_cons_of_mem a (List.mem_singleton.mpr rfl))) hx
      | cons₂ _ h1' =>
          cases h2 with
          | cons _ h2' =>
              exact absurd (h2'.subset (List.mem_cons_of_mem b (List.mem_singleton.mpr rfl))) hx
          | cons₂ _ h2' => rfl

/-- Every unordered pair of distinct list elements is enumerated in one of
its two orders. -/
theorem enumeratePairs_complete {α : Type} :
    ∀ (l : List α) (a b : α), a ∈ l → b ∈ l → a ≠ b →
      (a, b) ∈ enumeratePairs l ∨ (b, a) ∈ enumeratePairs l := by
  intro l
  induction l with
  | nil => intro a b ha; exact absurd ha (List.not_mem_nil a)
  | cons x xs ih =>
      intro a b ha hb hne
      rcases List.mem_cons.mp ha with rfl | ha'
      · rcases List.mem_cons.mp hb with rfl | hb'
        · exact absurd rfl hne
        · exact Or.inl ((mem_enumeratePairs ..).mpr
            (List.cons_sublist_cons.mpr (List.singleton_sublist.mpr hb')))
      · rcases List.mem_cons.mp hb with rfl | hb'
        · exact Or.inr ((mem_enumeratePairs ..).mpr
            (List.cons_sublist_cons.mpr (List.singleton_sublist.mpr ha')))
        · rcases ih a b ha' hb' hne with h | h
          · exact Or.inl ((mem_enumeratePairs ..).mpr (((mem_enumeratePairs ..).mp h).cons x))
          · exact Or.inr ((mem_enumeratePairs ..).mpr (((mem_enumeratePairs ..).mp h).cons x))

/-- Enumerating pairs of a duplicate-free list yields a duplicate-free pair
list. -/
theorem enumeratePairs_nodup {α : Type} :
    ∀ l : List α, l.Nodup → (enumeratePairs l).Nodup := by
  intro l
  induction l with
  | nil => intro _; exact List.nodup_nil
  | cons x xs ih =>
      intro hnd
      obtain ⟨hx, hxs⟩ := List.nodup_cons.mp hnd
      refine (hxs.map fun y1 y2 h => ?_).append (ih hxs) ?_
      · exact congrArg Prod.snd h
      · intro p hp1 hp2
        obtain ⟨a, b⟩ := p
        obtain ⟨y, _, heq⟩ := List.mem_map.mp hp1
        have hax : a = x := (congrArg Prod.fst heq).symm
        have hmem : a ∈ xs :=
          ((mem_enumeratePairs ..).mp hp2).subset (List.mem_cons_self a [b])
        exact hx (hax ▸ hmem)

/-- **C7.** The pair comprehension of lines 408-411 over a collected list of
size `N` produces exactly `N*(N-1)/2` pairs; on a duplicate-free list there
are no self-pairs, no repeated pairs, and no pair in both orders, while every
unordered pair of distinct elements appears in exactly one order; for three
records `a`, `b`, `c` the dispatched pairs are exactly
`(a,b)`, `(a,c)`, `(b,c)`. -/
theorem pair_enumeration_complete :
    (∀ l : List (Option NetworkRecord),
      (enumeratePairs l).length = l.length * (l.length - 1) / 2)
    ∧ (∀ l : List (Option NetworkRecord), l.Nodup →
        (∀ p ∈ enumeratePairs l, p.1 ≠ p.2)
        ∧ (enumeratePairs l).Nodup
        ∧ (∀ a b, ¬ ((a, b) ∈ enumeratePairs l ∧ (b, a) ∈ enumeratePairs l ∧ a ≠ b)))
    ∧ (∀ (l : List (Option NetworkRecord)) a b, a ∈ l → b ∈ l → a ≠ b →
        (a, b) ∈ enumeratePairs l ∨ (b, a) ∈ enumeratePairs l)
    ∧ (∀ a b c : NetworkRecord,
        enumeratePairs [some a, some b, some c]
          = [(some a, some b), (some a, some c), (some b, some c)]) := by
  refine ⟨fun l => ?_, fun l hnd => ⟨fun p hp => ?_, enumeratePairs_nodup l hnd,
    fun a b hboth => ?_⟩, enumeratePairs_complete, fun a b c => rfl⟩
  · have h := two_mul_length_enumeratePairs l
    generalize l.length * (l.length - 1) = k at h ⊢
    omega
  · obtain ⟨a, b⟩ := p
    intro hab
    have hab' : a = b := hab
    have hsub := (mem_enumeratePairs ..).mp hp
    have hnd2 : ([a, b] : List (Option NetworkRecord)).Nodup := hsub.nodup hnd
    rw [hab'] at hnd2
    exact (List.nodup_cons.mp hnd2).1 (List.mem_singleton.mpr rfl)
  · obtain ⟨h1, h2, hne⟩ := hboth
    exact hne (enumeratePairs_antisymm l hnd a b
      ((mem_enumeratePairs ..).mp h1) ((mem_enumeratePairs ..).mp h2))

/-- Concrete records for the three-region scenario. -/
def recA : NetworkRecord := ⟨"a", "vpc-a", "10.101.0.0/16"⟩
def recB : NetworkRecord := ⟨"b", "vpc-b", "10.105.0.0/16"⟩
def recC : NetworkRecord := ⟨"c", "vpc-c", "10.109.0.0/16"⟩

/-- **C7 witness.** On the three-record list the enumeration yields three
pairs; the no-self-pair property instantiated on its first pair. -/
theorem pair_enumeration_witness :
    (enumeratePairs [some recA, some recB, some recC]).length = 3
    ∧ (some recA : Option NetworkRecord) ≠ some recB := by
  constructor
  · rw [pair_enumeration_complete.1]
    decide
  · exact (pair_enumeration_complete.2.1 [some recA, some recB] (by decide)).1
      (some recA, some recB) (by decide)

/-! ### Peering route updates (C8) -/

/-- Counting the routes added over one VPC's tables with that VPC's intended
destination: one per occurrence of the table. -/
theorem countP_routes_same (t c pcx : String) (tables : List String) :
    (tables.map (fun tb => (⟨tb, c, pcx⟩ : RouteAdd))).countP
      (fun r => r.table == t && r.destCidr == c && r.peeringId == pcx)
      = tables.count t := by
  rw [List.countP_map]
  simp only [Function.comp_def, beq_self_eq_true, Bool.and_true]
  rfl

/-- Routes added over tables not containing `t` never match table `t`. -/
theorem countP_routes_other (t c c' pcx : String) (tables : List String)
    (h : t ∉ tables) :
    (tables.map (fun tb => (⟨tb, c', pcx⟩ : RouteAdd))).countP
      (fun r => r.table == t && r.destCidr == c && r.peeringId == pcx) = 0 := by
  rw [List.countP_map]
  refine List.countP_eq_zero.mpr ?_
  intro tb htb
  simp only [Function.comp_def, Bool.and_eq_true, beq_iff_eq, not_and]
  intro he
  exact absurd (he.1 ▸ htb) h

/-- **C8.** A successful `create_peering(requestor, acceptor)` adds, for every
route table of the acceptor's VPC, exactly one route whose destination is the
requestor's CIDR via the pair's peering connection, and for every route table
of the requestor's VPC exactly one route to the acceptor's CIDR — provided
the two VPCs' route tables are distinct resources (duplicate-free and not
shared across the two networks). -/
theorem peering_routes_once_per_table
    (pcx requestorCidr acceptorCidr : String)
    (requestorTables acceptorTables : List String)
    (hreq : requestorTables.Nodup) (hacc : acceptorTables.Nodup)
    (hdisj : ∀ t ∈ requestorTables, t ∉ acceptorTables) :
    (∀ t ∈ acceptorTables,
      (create_peering_routes pcx requestorCidr acceptorCidr
          requestorTables acceptorTables).countP
        (fun r => r.table == t && r.destCidr == requestorCidr && r.peeringId == pcx)
        = 1)
    ∧ (∀ t ∈ requestorTables,
      (create_peering_routes pcx requestorCidr acceptorCidr
          requestorTables acceptorTables).countP
        (fun r => r.table == t && r.destCidr == acceptorCidr && r.peeringId == pcx)
        = 1) := by
  constructor
  · intro t ht
    have htna : t ∉ requestorTables := fun hmem => hdisj t hmem ht
    rw [create_peering_routes, List.countP_append, countP_routes_same,
      countP_routes_other t requestorCidr acceptorCidr pcx requestorTables htna,
      List.count_eq_one_of_mem hacc ht]
  · intro t ht
    rw [create_peering_routes, List.countP_append,
      countP_routes_other t acceptorCidr requestorCidr pcx acceptorTables (hdisj t ht),
      countP_routes_same, List.count_eq_one_of_mem hreq ht]

/-- **C8 witness.** A concrete pair with one route table on each side: the
acceptor's table receives exactly one route towards the requestor's CIDR. -/
theorem peering_routes_once_per_table_witness :
    (create_peering_routes "pcx-12345" "10.101.0.0/16" "10.105.0.0/16"
        ["rtb-a"] ["rtb-b"]).countP
      (fun r => r.table == "rtb-b" && r.destCidr == "10.101.0.0/16"
        && r.peeringId == "pcx-12345") = 1 :=
  (peering_routes_once_per_table "pcx-12345" "10.101.0.0/16" "10.105.0.0/16"
      ["rtb-a"] ["rtb-b"] (by decide) (by decide) (by decide)).1 "rtb-b" (by decide)

/-! ### Confirmation gate (C9, C10) -/

/-- **C9.** Any confirmation input whose lowercasing differs from `"yes"`
makes `main` return at line 382: the trace is exactly one log line — no
provider call, no region dispatch, no pair dispatch. -/
theorem decline_is_noop (s : String) (regions : List String)
    (results : List (PyResult (Option NetworkRecord)))
    (h : pyLower s ≠ "yes") :
    mainRun s regions results = [Effect.log "Operation cancelled by the user."]
    ∧ (mainRun s regions results).countP Effect.isProviderCall = 0
    ∧ (mainRun s regions results).countP Effect.isRegionDispatch = 0
    ∧ (mainRun s regions results).countP Effect.isPairDispatch = 0
    ∧ (mainRun s regions results).countP Effect.isLog = 1 := by
  have h1 : mainRun s regions results
      = [Effect.log "Operation cancelled by the user."] := by
    rw [mainRun, if_pos h]
  exact ⟨h1, by rw [h1]; rfl, by rw [h1]; rfl, by rw [h1]; rfl, by rw [h1]; rfl⟩

/-- **C9 witness.** Declining with `"no"` on a one-region run: one log line,
nothing else. -/
theorem decline_is_noop_witness :
    mainRun "no" ["us-east-1"] [.ok (some recA)]
      = [Effect.log "Operation cancelled by the user."]
    ∧ (mainRun "no" ["us-east-1"] [.ok (some recA)]).countP Effect.isProviderCall = 0
    ∧ (mainRun "no" ["us-east-1"] [.ok (some recA)]).countP Effect.isRegionDispatch = 0
    ∧ (mainRun "no" ["us-east-1"] [.ok (some recA)]).countP Effect.isPairDispatch = 0
    ∧ (mainRun "no" ["us-east-1"] [.ok (some recA)]).countP Effect.isLog = 1 :=
  decline_is_noop "no" ["us-east-1"] [.ok (some recA)] (by decide)

/-- **C10.** The gate at line 380 accepts exactly the inputs whose
lowercasing equals `"yes"`: the run proceeds (its trace opens with the start
log) iff `confirmation.lower() == "yes"`; `"YES"` and `"Yes"` proceed, while
`"y"`, `"yes "` (trailing blank) and the empty input all exit with the single
cancellation log line and dispatch nothing. -/
theorem confirmation_gate_lower_yes :
    (∀ (s : String) (regions : List String)
        (results : List (PyResult (Option NetworkRecord))),
      ((mainRun s regions results).head?
          = some (Effect.log "Starting VPC creation and peering process"))
        ↔ pyLower s = "yes")
    ∧ pyLower "YES" = "yes" ∧ pyLower "Yes" = "yes"
    ∧ pyLower "y" ≠ "yes" ∧ pyLower "yes " ≠ "yes" ∧ pyLower "" ≠ "yes"
    ∧ (∀ (regions : List String) (results : List (PyResult (Option NetworkRecord))),
        mainRun "YES" regions results ≠ [Effect.log "Operation cancelled by the user."]
        ∧ mainRun "y" regions results = [Effect.log "Operation cancelled by the user."]
        ∧ mainRun "yes " regions results = [Effect.log "Operation cancelled by the user."]
        ∧ mainRun "" regions results = [Effect.log "Operation cancelled by the user."]) := by
  refine ⟨fun s regions results => ?_, by decide, by decide, by decide, by decide, by decide,
    fun regions results => ⟨?_, ?_, ?_, ?_⟩⟩
  · by_cases hc : pyLower s = "yes"
    · rw [mainRun, if_neg (not_not_intro hc)]
      exact iff_of_true rfl hc
    · rw [mainRun, if_pos hc]
      refine iff_of_false (fun he => ?_) hc
      exact absurd (Option.some.inj he)
        (by decide : Effect.log "Operation cancelled by the user."
          ≠ Effect.log "Starting VPC creation and peering process")
  · rw [mainRun, if_neg (not_not_intro (by decide))]
    intro he
    simp only [List.cons.injEq] at he
    exact absurd he.1 (by decide)
  · rw [mainRun, if_pos (by decide)]
  · rw [mainRun, if_pos (by decide)]
  · rw [mainRun, if_pos (by decide)]

/-- **C10 witness.** `"YES"` passes the gate: the run's trace opens with the
start log. -/
theorem confirmation_gate_lower_yes_witness :
    (mainRun "YES" ["us-east-1"] []).head?
      = some (Effect.log "Starting VPC creation and peering process") :=
  (confirmation_gate_lower_yes.1 "YES" ["us-east-1"] []).mpr (by decide)

end GlobalVpc
